import Mathlib

/-
Verification of the simulation core of the CppND snake game
(Snake, Food, FoodManager, Game::Update) against its natural-language
specification.

Modelling conventions:
- C++ float arithmetic is modelled with exact rational arithmetic; the
  literals 0.15, 0.3, 0.005, 0.05 become 3/20, 3/10, 1/200, 1/20.  The
  rationals are carried as explicit numerator/denominator pairs (type Q
  below) whose operations the kernel can evaluate; a denominator is
  positive everywhere in this development, comparisons cross-multiply,
  and Q.toRat interprets a pair as the rational it denotes (correctness
  lemmas for the operations follow the definitions).
- static_cast<int> on a float is truncation toward zero (truncQ below);
  fmod is modelled by fmodQ, the truncated-division remainder, exactly as
  the C library defines it for finite arguments.
- std::vector is a Lean List.  vector::erase(first, last) with last past
  the end of the vector is undefined behavior; operations that can reach
  that situation return Option and yield none there.
- The random device/engine is modelled as an explicit entropy stream, a
  List Int consumed draw by draw in source order (x, then y, then n).
-/

set_option maxRecDepth 10000

namespace SnakeGame

/-- SDL_Point: an integer grid coordinate. -/
structure SDLPoint where
  x : Int
  y : Int
deriving DecidableEq, Repr

/-- Snake::Direction. -/
inductive Direction where
  | kUp
  | kDown
  | kLeft
  | kRight
deriving DecidableEq, Repr

/-- Food::Type. -/
inductive FoodType where
  | kNormal
  | kBoost
  | kCut
deriving DecidableEq, Repr

/-- An exact rational as an explicit fraction; every Q built in this
development has a positive denominator. -/
structure Q where
  num : Int
  den : Int
deriving DecidableEq, Repr

/-- The fraction n / d. -/
def mkQ (n d : Int) : Q := ⟨n, d⟩

/-- An integer as a fraction over 1. -/
def intQ (n : Int) : Q := ⟨n, 1⟩

/-- Fraction addition. -/
def Q.add (a b : Q) : Q := ⟨a.num * b.den + b.num * a.den, a.den * b.den⟩

/-- Fraction subtraction. -/
def Q.sub (a b : Q) : Q := ⟨a.num * b.den - b.num * a.den, a.den * b.den⟩

/-- Fraction strict comparison by cross multiplication (for positive
denominators). -/
def Q.lt (a b : Q) : Bool := a.num * b.den < b.num * a.den

/-- The rational a fraction denotes. -/
def Q.toRat (q : Q) : ℚ := (q.num : ℚ) / (q.den : ℚ)

/-- Truncation toward zero, the semantics of static_cast<int>(float);
Int.tdiv rounds toward zero, matching C integer conversion for a positive
denominator. -/
def truncQ (q : Q) : Int := Int.tdiv q.num q.den

/-- Truncation toward zero of the quotient a / b of two fractions. -/
def truncDivQ (a b : Q) : Int := Int.tdiv (a.num * b.den) (a.den * b.num)

/-- C fmod on exact fractions: a - trunc(a/b) * b. -/
def fmodQ (a b : Q) : Q := a.sub ⟨truncDivQ a b * b.num, b.den⟩

/-- Food::MAX_COUNT = 5 * 60 ticks. -/
def MAX_COUNT : Int := 5 * 60

/-- The Food entity: type, grid position, remaining-lifetime counter. -/
structure Food where
  type : FoodType
  pos : SDLPoint
  counter : Int
deriving DecidableEq, Repr

namespace Food

/-- Food::Food(): placeholder position (-1,-1), Normal type, full counter. -/
def initFood : Food :=
  { type := FoodType.kNormal, pos := ⟨-1, -1⟩, counter := MAX_COUNT }

/-- Food::Count(): counter--; if (counter <= 0) type = kNormal. -/
def count (f : Food) : Food :=
  let counter := f.counter - 1
  { f with
    counter := counter
    type := if counter ≤ 0 then FoodType.kNormal else f.type }

/-- Food::Update(x, y, t): relocate, retype, reset the counter. -/
def updateFood (_f : Food) (x y : Int) (t : FoodType) : Food :=
  { pos := ⟨x, y⟩, type := t, counter := MAX_COUNT }

end Food

/-- FoodManager::Count(): age every food by one tick. -/
def managerCount (foods : List Food) : List Food := foods.map Food.count

/-- Scan loop of FoodManager::CheckFood, carrying the running index i. -/
def checkFoodAux (x y : Int) : List Food → Int → Int
  | [], _ => -1
  | f :: rest, i =>
      if f.pos.x = x ∧ f.pos.y = y then i else checkFoodAux x y rest (i + 1)

/-- FoodManager::CheckFood(x, y): first index whose food occupies (x, y), else -1. -/
def checkFood (foods : List Food) (x y : Int) : Int := checkFoodAux x y foods 0

/-- FoodManager::GetType(n): foods[n].type.  An out-of-range index is
undefined behavior in the source; the default is unreachable for indices
produced by checkFood. -/
def getType (foods : List Food) (n : Int) : FoodType :=
  ((foods.get? n.toNat).map Food.type).getD FoodType.kNormal

/-- FoodManager::UpdateFood(n, x, y, type): foods[n].Update(x, y, type).
An out-of-range index is undefined behavior in the source and unreachable
here, so it is a no-op. -/
def updateFoodAt : List Food → Int → Int → Int → FoodType → List Food
  | [], _, _, _, _ => []
  | f :: rest, n, x, y, t =>
      if n = 0 then f.updateFood x y t :: rest
      else f :: updateFoodAt rest (n - 1) x y t

/-- Snake::MAX_SPEED{0.3}. -/
def MAX_SPEED : Q := mkQ 3 10

/-- The Snake entity, fields as declared in snake.h. -/
structure Snake where
  direction : Direction
  speed : Q
  size : Int
  alive : Bool
  head_x : Q
  head_y : Q
  body : List SDLPoint
  growing : Bool
  cutting : Bool
  grid_width : Int
  grid_height : Int
deriving DecidableEq, Repr

namespace Snake

/-- Snake::PushBack(cell): append to body, increment size. -/
def pushBack (s : Snake) (cell : SDLPoint) : Snake :=
  { s with body := s.body ++ [cell], size := s.size + 1 }

/-- Snake::Snake(grid_width, grid_height, init_x, init_y, speed):
field defaults from snake.h (direction kUp, size 1, alive, no flags),
then two PushBack calls seeding the body below the head. -/
def create (grid_width grid_height init_x init_y : Int) (speed : Q) : Snake :=
  let s : Snake :=
    { direction := Direction.kUp, speed := speed, size := 1, alive := true
    , head_x := intQ init_x, head_y := intQ init_y, body := []
    , growing := false, cutting := false
    , grid_width := grid_width, grid_height := grid_height }
  let p : SDLPoint := ⟨truncQ s.head_x, truncQ (s.head_y.add (intQ 1))⟩
  let s := s.pushBack p
  s.pushBack ⟨p.x, p.y + 1⟩

/-- Snake::UpdateHead(): advance along the heading, then wrap with fmod. -/
def updateHead (s : Snake) : Snake :=
  let s :=
    match s.direction with
    | Direction.kUp => { s with head_y := s.head_y.sub s.speed }
    | Direction.kDown => { s with head_y := s.head_y.add s.speed }
    | Direction.kLeft => { s with head_x := s.head_x.sub s.speed }
    | Direction.kRight => { s with head_x := s.head_x.add s.speed }
  { s with
    head_x := fmodQ (s.head_x.add (intQ s.grid_width)) (intQ s.grid_width)
    head_y := fmodQ (s.head_y.add (intQ s.grid_height)) (intQ s.grid_height) }

/-- Snake::UpdateBody(current_cell, prev_cell).  Returns none exactly when
the cutting erase would run past the end of the body vector, which is
undefined behavior in the source. -/
def updateBody (s : Snake) (current_cell prev_cell : SDLPoint) : Option Snake :=
  let body1 := s.body ++ [prev_cell]
  let afterGrow : List SDLPoint × Int :=
    if ¬ s.growing then (body1.tail, s.size) else (body1, s.size + 1)
  let body2 := afterGrow.1
  let size2 := afterGrow.2
  let afterCut : Option (List SDLPoint × Int) :=
    if s.cutting then
      let cut := min 3 size2
      if 0 ≤ cut ∧ cut ≤ (body2.length : Int) then
        some (body2.drop cut.toNat, size2 - cut)
      else none
    else some (body2, size2)
  afterCut.map fun bs =>
    let alive3 :=
      if bs.1.any fun item => current_cell.x == item.x && current_cell.y == item.y
      then false else s.alive
    { s with body := bs.1, size := bs.2, growing := false, cutting := false
           , alive := alive3 }

/-- Snake::Update(): capture the cell before and after UpdateHead and run
UpdateBody only when the discretized cell changed. -/
def update (s : Snake) : Option Snake :=
  let prev_cell : SDLPoint := ⟨truncQ s.head_x, truncQ s.head_y⟩
  let s1 := s.updateHead
  let current_cell : SDLPoint := ⟨truncQ s1.head_x, truncQ s1.head_y⟩
  if current_cell.x ≠ prev_cell.x ∨ current_cell.y ≠ prev_cell.y then
    s1.updateBody current_cell prev_cell
  else some s1

/-- Snake::GrowBody(): set the deferred growth flag. -/
def growBody (s : Snake) : Snake := { s with growing := true }

/-- Snake::CutBody(): set the deferred truncation flag. -/
def cutBody (s : Snake) : Snake := { s with cutting := true }

/-- Snake::SnakeCell(x, y): does (x, y) equal the discretized head or any
body cell. -/
def snakeCell (s : Snake) (x y : Int) : Bool :=
  if x = truncQ s.head_x ∧ y = truncQ s.head_y then true
  else s.body.any fun item => x == item.x && y == item.y

end Snake

/-- Manhattan distance used by the target-selection loop of Snake::Navigate. -/
def manhattan (p : SDLPoint) (x y : Int) : Int := |p.x - x| + |p.y - y|

/-- Target-selection loop of Snake::Navigate, carrying the running index i,
the best index so far, and the minimum distance so far. -/
def navSelectAux (x y : Int) : List Food → Int → Int → Int → Int × Int
  | [], _, index, min_distance => (index, min_distance)
  | f :: rest, i, index, min_distance =>
      let distance := manhattan f.pos x y
      if distance < min_distance then navSelectAux x y rest (i + 1) i distance
      else navSelectAux x y rest (i + 1) index min_distance

/-- Index of the food Snake::Navigate targets: the selection loop started
with index 0 and min_distance = grid_width + grid_height. -/
def navTargetIndex (s : Snake) (foods : List Food) : Int :=
  (navSelectAux (truncQ s.head_x) (truncQ s.head_y) foods 0 0
      (s.grid_width + s.grid_height)).1

/-- Snake::NextPos(dir, next_x, next_y): the adjacent cell along dir. -/
def nextPos (dir : Direction) (x y : Int) : Int × Int :=
  match dir with
  | Direction.kUp => (x, y - 1)
  | Direction.kDown => (x, y + 1)
  | Direction.kLeft => (x - 1, y)
  | Direction.kRight => (x + 1, y)

/-- Snake::NextDirection(dir): a switch with no break statements, so every
entry point falls through all the later case bodies.  The net effect of
each entry is the last assignment executed:
entering at kUp runs dir = kRight; dir = kDown; dir = kLeft; dir = kRight;
entering at kRight runs dir = kDown; dir = kLeft; dir = kRight;
entering at kDown runs dir = kLeft; dir = kRight;
entering at kLeft runs dir = kRight. -/
def nextDirection (dir : Direction) : Direction :=
  match dir with
  | Direction.kUp => Direction.kRight
  | Direction.kRight => Direction.kRight
  | Direction.kDown => Direction.kRight
  | Direction.kLeft => Direction.kRight

/-- Collision-avoidance loop of Snake::Navigate: up to 4 probes; a probe
whose next cell is free keeps the candidate, an occupied one rotates it
with NextDirection and re-probes. -/
def avoidLoop (s : Snake) (x y : Int) : Nat → Direction → Direction
  | 0, dir => dir
  | Nat.succ n, dir =>
      let np := nextPos dir x y
      if ¬ s.snakeCell np.1 np.2 then dir
      else avoidLoop s x y n (nextDirection dir)

/-- Snake::Navigate(foods): pick the nearest food, compute a candidate
heading from the relative position, then run the collision-avoidance
probes.  Reading foods[index] from an empty snapshot is undefined behavior
in the source; the default is unreachable in the game, whose snapshot
always holds two foods. -/
def Snake.navigate (s : Snake) (foods : List Food) : Direction :=
  let x := truncQ s.head_x
  let y := truncQ s.head_y
  let index := navTargetIndex s foods
  let food := (foods.get? index.toNat).getD Food.initFood
  let dir :=
    if (s.direction = Direction.kUp ∧ food.pos.y > y) ∨
       (s.direction = Direction.kDown ∧ food.pos.y < y) then
      if food.pos.x < x then Direction.kLeft else Direction.kRight
    else if (s.direction = Direction.kLeft ∧ food.pos.x > x) ∨
            (s.direction = Direction.kRight ∧ food.pos.x < x) then
      if food.pos.y < y then Direction.kUp else Direction.kDown
    else if food.pos.x = x ∧
            (s.direction = Direction.kLeft ∨ s.direction = Direction.kRight) then
      if food.pos.y > y then Direction.kDown else Direction.kUp
    else if food.pos.y = y ∧
            (s.direction = Direction.kDown ∨ s.direction = Direction.kUp) then
      if food.pos.x > x then Direction.kRight else Direction.kLeft
    else s.direction
  avoidLoop s x y 4 dir

/-- The Game state driven by Game::Update: both snakes, the food sequence of the
manager, and the two score counters (scores[0] player, scores[1] enemy). -/
structure GameState where
  snake : Snake
  enemy : Snake
  foods : List Food
  score0 : Int
  score1 : Int
deriving DecidableEq, Repr

/-- Type choice of Game::PlaceFood from the draw n of random_n(0, 99). -/
def foodTypeOfDraw (n : Int) : FoodType :=
  if 0 ≤ n ∧ n < 15 then FoodType.kBoost
  else if 15 ≤ n ∧ n < 30 then FoodType.kCut
  else FoodType.kNormal

/-- Game::PlaceFood(index): draw x and y, retry while the cell is occupied
by either snake, then draw n, choose the type and relocate foods[index].
The unbounded retry loop is driven by the explicit entropy stream; an
exhausted stream yields none. -/
def placeFood (g : GameState) (index : Int) : List Int → Option (GameState × List Int)
  | x :: y :: rest =>
      if ¬ g.snake.snakeCell x y ∧ ¬ g.enemy.snakeCell x y then
        match rest with
        | n :: rest2 =>
            some ({ g with foods := updateFoodAt g.foods index x y (foodTypeOfDraw n) },
                  rest2)
        | [] => none
      else placeFood g index rest
  | _ => none

/-- Per-snake food effect of Game::Update (the source repeats this block
verbatim once for the player with scores[0] and once for the enemy with
scores[1]): Normal grows and adds 0.005 speed only below MAX_SPEED for +1;
Boost grows and adds 0.05 unconditionally for +3; Cut grows then cuts
for +3. -/
def applyEat (sn : Snake) (score : Int) : FoodType → Snake × Int
  | FoodType.kNormal =>
      ({ sn.growBody with
          speed := if sn.speed.lt MAX_SPEED then sn.speed.add (mkQ 1 200) else sn.speed },
       score + 1)
  | FoodType.kBoost =>
      ({ sn.growBody with speed := sn.speed.add (mkQ 1 20) }, score + 3)
  | FoodType.kCut => ((sn.growBody).cutBody, score + 3)

/-- Player half of the collision resolution in Game::Update: check the
food at the new head cell of the player, apply its effect to the player snake
and scores[0], and relocate the eaten slot. -/
def playerPhase (g : GameState) (new_x new_y : Int) (ent : List Int) :
    Option (GameState × List Int) :=
  let index := checkFood g.foods new_x new_y
  if index ≠ -1 then
    let t := getType g.foods index
    let p := applyEat g.snake g.score0 t
    placeFood { g with snake := p.1, score0 := p.2 } index ent
  else some (g, ent)

/-- Enemy half of the collision resolution in Game::Update, identical to
the player half but targeting the enemy snake and scores[1]. -/
def enemyPhase (g : GameState) (new_x new_y : Int) (ent : List Int) :
    Option (GameState × List Int) :=
  let index := checkFood g.foods new_x new_y
  if index ≠ -1 then
    let t := getType g.foods index
    let p := applyEat g.enemy g.score1 t
    placeFood { g with enemy := p.1, score1 := p.2 } index ent
  else some (g, ent)

/-- Game::Update(): early return when either snake is dead; otherwise
update both snakes, age every food, then resolve food collisions for the
player and then the enemy at their new discretized head cells. -/
def gameUpdate (g : GameState) (ent : List Int) : Option (GameState × List Int) :=
  if ¬ g.snake.alive ∨ ¬ g.enemy.alive then some (g, ent)
  else
    match g.snake.update, g.enemy.update with
    | some sn, some en =>
        let foods := managerCount g.foods
        let new_x_snake := truncQ sn.head_x
        let new_y_snake := truncQ sn.head_y
        let new_x_enemy := truncQ en.head_x
        let new_y_enemy := truncQ en.head_y
        match playerPhase { g with snake := sn, enemy := en, foods := foods }
                new_x_snake new_y_snake ent with
        | none => none
        | some (g2, ent2) => enemyPhase g2 new_x_enemy new_y_enemy ent2
    | _, _ => none

/-- Member-initializer part of Game::Game for grid (grid_width, grid_height):
player snake at (grid_width/2 - 5, grid_height/2) with speed 0.15, enemy at
(grid_width/2 + 5, grid_height/2 + 5) with speed 0.05, the two-food manager
from FoodManager::FoodManager, and scores [0, 1]. -/
def gameConstruct (grid_width grid_height : Int) : GameState :=
  { snake := Snake.create grid_width grid_height (grid_width / 2 - 5) (grid_height / 2) (mkQ 3 20)
  , enemy := Snake.create grid_width grid_height (grid_width / 2 + 5) (grid_height / 2 + 5) (mkQ 1 20)
  , foods := [Food.initFood, Food.initFood]
  , score0 := 0
  , score1 := 1 }

/-- Game::Game body: construct the members, then PlaceFood for each of the
target_food_number = 2 slots. -/
def gameInit (grid_width grid_height : Int) (ent : List Int) :
    Option (GameState × List Int) :=
  match placeFood (gameConstruct grid_width grid_height) 0 ent with
  | none => none
  | some (g1, e1) => placeFood g1 1 e1

/-- Game::GetScore(): a copy [scores[0], scores[1]]. -/
def getScore (g : GameState) : List Int := [g.score0, g.score1]

/-- One iteration of the Game::Run loop restricted to the simulation part:
enemy.Navigate on a snapshot of the foods, then Game::Update. -/
def gameTick (g : GameState) (ent : List Int) : Option (GameState × List Int) :=
  gameUpdate
    { g with enemy := { g.enemy with direction := g.enemy.navigate g.foods } } ent

/-- n consecutive Game::Update calls threading the entropy stream. -/
def gameIter : Nat → GameState → List Int → Option (GameState × List Int)
  | 0, g, ent => some (g, ent)
  | Nat.succ n, g, ent =>
      match gameUpdate g ent with
      | none => none
      | some (g1, e1) => gameIter n g1 e1

/-! Concrete states used by claim witnesses and counterexamples. -/

/-- Entropy stream for a run from the real constructor: at construction a
Boost food at (11,15) and a Normal food at (0,0); each time the player
eats, the slot is refilled with a Boost food one cell further up the
column the player is climbing. -/
def c1Entropy : List Int :=
  [11, 15, 0, 0, 0, 99, 11, 14, 0, 11, 13, 0, 11, 12, 0, 11, 11, 0]

/-- The game state and remaining entropy right after Game::Game with the
c1Entropy stream. -/
def c1Start : GameState × List Int :=
  (gameInit 32 32 c1Entropy).getD (gameConstruct 32 32, [])

/-- The state after one further Game::Update from c1Start (the player
eats the Boost food at (11,15)). -/
def c1AfterTick : GameState × List Int :=
  (gameUpdate c1Start.1 c1Start.2).getD (c1Start.1, [])

/-- The player snake as Game::Game constructs it on a 32-by-32 grid. -/
def sampleSnake : Snake := Snake.create 32 32 11 16 (mkQ 3 20)

/-- The sample snake after one Snake::Update (the head moves from cell
(11,16) to (11,15), so the body shifts). -/
def sampleSnakeUpdated : Snake := (sampleSnake.update).getD sampleSnake

/-- A snake whose size field is 2, so its body holds a single cell, with
the cutting flag set and the head about to cross from cell (10,11) into
(10,10). -/
def c4Snake : Snake :=
  { direction := Direction.kUp, speed := mkQ 3 20, size := 2, alive := true
  , head_x := intQ 10, head_y := mkQ 221 20, body := [⟨10, 12⟩]
  , growing := false, cutting := true, grid_width := 32, grid_height := 32 }

/-- A growing snake whose head moves from y = 15.85 to y = 15.70, staying
inside cell (16,15), so Snake::Update performs no body shift. -/
def c6Snake : Snake :=
  { direction := Direction.kUp, speed := mkQ 3 20, size := 5, alive := true
  , head_x := intQ 16, head_y := mkQ 317 20
  , body := [⟨16, 16⟩, ⟨16, 17⟩, ⟨16, 18⟩, ⟨16, 19⟩]
  , growing := true, cutting := false, grid_width := 32, grid_height := 32 }

/-- A food snapshot whose first food sits at (5,9), below the enemy head. -/
def c5Foods : List Food :=
  [{ type := FoodType.kNormal, pos := ⟨5, 9⟩, counter := MAX_COUNT }, Food.initFood]

/-- A game state whose player snake is dead while the enemy at (5,5)
heads Up with the nearest food behind it at (5,9). -/
def c5State : GameState :=
  { snake := { Snake.create 32 32 11 16 (mkQ 3 20) with alive := false }
  , enemy := Snake.create 32 32 5 5 (mkQ 1 20)
  , foods := c5Foods, score0 := 0, score1 := 1 }

/-- A food at (13,16): Manhattan distance 2 from the sample snake head
(11,16). -/
def c8FoodA : Food := { type := FoodType.kNormal, pos := ⟨13, 16⟩, counter := MAX_COUNT }

/-- A food at (11,18): also Manhattan distance 2 from the head (11,16). -/
def c8FoodB : Food := { type := FoodType.kNormal, pos := ⟨11, 18⟩, counter := MAX_COUNT }

/-- A freshly relocated Boost food. -/
def boostFood : Food := { Food.initFood with type := FoodType.kBoost }

/-- Entropy placing the two construction foods at (0,0) and (1,0), both
Normal. -/
def c10Entropy : List Int := [0, 0, 50, 1, 0, 50]

/-- The game state and remaining entropy right after Game::Game with the
c10Entropy stream. -/
def c10Init : GameState × List Int :=
  (gameInit 32 32 c10Entropy).getD (gameConstruct 32 32, [])

/-! Correctness of the fraction operations with respect to the rationals
they denote. -/

theorem Q_add_toRat (a b : Q) (ha : (a.den : ℚ) ≠ 0) (hb : (b.den : ℚ) ≠ 0) :
    (a.add b).toRat = a.toRat + b.toRat := by
  simp only [Q.add, Q.toRat]
  push_cast
  field_simp

theorem Q_sub_toRat (a b : Q) (ha : (a.den : ℚ) ≠ 0) (hb : (b.den : ℚ) ≠ 0) :
    (a.sub b).toRat = a.toRat - b.toRat := by
  simp only [Q.sub, Q.toRat]
  push_cast
  field_simp
  ring

theorem Q_lt_toRat (a b : Q) (ha : 0 < a.den) (hb : 0 < b.den) :
    a.lt b = true ↔ a.toRat < b.toRat := by
  have ha' : (0 : ℚ) < (a.den : ℚ) := by exact_mod_cast ha
  have hb' : (0 : ℚ) < (b.den : ℚ) := by exact_mod_cast hb
  simp only [Q.lt, Q.toRat, decide_eq_true_eq, div_lt_div_iff₀ ha' hb']
  constructor
  · intro h
    exact_mod_cast h
  · intro h
    exact_mod_cast h

/-! Food lifecycle lemmas shared by the counter claims. -/

/-- Iterating Food::Count n times decrements the counter by n. -/
theorem count_iter_counter (f : Food) (n : Nat) :
    ((Food.count)^[n] f).counter = f.counter - n := by
  induction n with
  | zero => simp
  | succ n ih =>
      rw [Function.iterate_succ_apply']
      simp only [Food.count]
      rw [ih]
      push_cast
      omega

/-- Iterating Food::Count never moves the food. -/
theorem count_iter_pos (f : Food) (n : Nat) :
    ((Food.count)^[n] f).pos = f.pos := by
  induction n with
  | zero => simp
  | succ n ih =>
      rw [Function.iterate_succ_apply']
      simp only [Food.count]
      exact ih

/-- Once enough Count calls have passed for the counter to be at or below
zero, the type is Normal. -/
theorem count_iter_type_normal (f : Food) (n : Nat) (h1 : 1 ≤ n)
    (h2 : f.counter ≤ (n : Int)) :
    ((Food.count)^[n] f).type = FoodType.kNormal := by
  obtain ⟨m, rfl⟩ : ∃ m, n = m + 1 := ⟨n - 1, by omega⟩
  rw [Function.iterate_succ_apply']
  simp only [Food.count]
  have hc := count_iter_counter f m
  have : ((Food.count)^[m] f).counter - 1 ≤ 0 := by
    rw [hc]
    push_cast at h2 ⊢
    omega
  simp [this]

/-! Snake update lemmas shared by the size and speed claims. -/

/-- Snake::UpdateHead only moves the continuous head position. -/
theorem updateHead_fields (s : Snake) :
    (s.updateHead).speed = s.speed ∧ (s.updateHead).size = s.size ∧
    (s.updateHead).body = s.body ∧ (s.updateHead).growing = s.growing ∧
    (s.updateHead).cutting = s.cutting ∧ (s.updateHead).alive = s.alive ∧
    (s.updateHead).direction = s.direction := by
  cases s with
  | mk direction speed size alive head_x head_y body growing cutting gw gh =>
      cases direction <;> simp [Snake.updateHead]

/-- A successful Snake::UpdateBody leaves speed, direction and the head
untouched, clears both deferred flags, and edits body and size as the
growth and cut branches dictate, with the cut staying inside the body. -/
theorem updateBody_spec (s : Snake) (cur prev : SDLPoint) (s' : Snake)
    (h : s.updateBody cur prev = some s') :
    s'.speed = s.speed ∧ s'.direction = s.direction ∧
    s'.head_x = s.head_x ∧ s'.head_y = s.head_y ∧
    s'.growing = false ∧ s'.cutting = false ∧
    s'.body = (if s.growing then s.body ++ [prev] else (s.body ++ [prev]).tail).drop
        (if s.cutting then (min 3 (if s.growing then s.size + 1 else s.size)).toNat else 0) ∧
    s'.size = (if s.growing then s.size + 1 else s.size) -
        (if s.cutting then min 3 (if s.growing then s.size + 1 else s.size) else 0) ∧
    (s.cutting = true →
      min 3 (if s.growing then s.size + 1 else s.size) ≤
        ((if s.growing then s.body ++ [prev] else (s.body ++ [prev]).tail).length : Int)) := by
  unfold Snake.updateBody at h
  cases hg : s.growing <;> cases hc : s.cutting <;>
    rw [hg, hc] at h <;>
    simp only [Option.map_eq_some', Bool.false_eq_true, Bool.true_eq_false, not_true,
      not_false_iff, if_true, if_false, ite_true, ite_false, not_false_eq_true,
      not_true_eq_false] at h <;>
    obtain ⟨a, ha, rfl⟩ := h
  · -- not growing, not cutting
    obtain rfl := Option.some.inj ha
    simp
  · -- not growing, cutting: the bound check guards the erase
    split at ha
    · obtain rfl := Option.some.inj ha
      rename_i hguard
      have h2 := hguard.2
      simp at h2 ⊢
      omega
    · exact absurd ha (by simp)
  · -- growing, not cutting
    obtain rfl := Option.some.inj ha
    simp
  · -- growing, cutting
    split at ha
    · obtain rfl := Option.some.inj ha
      rename_i hguard
      have h2 := hguard.2
      simp at h2 ⊢
      omega
    · exact absurd ha (by simp)

/-- Snake::Update either leaves the snake as updateHead produced it (the
discretized cell did not change) or hands it to UpdateBody. -/
theorem update_cases (s s' : Snake) (h : s.update = some s') :
    (truncQ (s.updateHead).head_x = truncQ s.head_x ∧
     truncQ (s.updateHead).head_y = truncQ s.head_y ∧ s' = s.updateHead) ∨
    (¬ (truncQ (s.updateHead).head_x = truncQ s.head_x ∧
        truncQ (s.updateHead).head_y = truncQ s.head_y) ∧
     (s.updateHead).updateBody
        ⟨truncQ (s.updateHead).head_x, truncQ (s.updateHead).head_y⟩
        ⟨truncQ s.head_x, truncQ s.head_y⟩ = some s') := by
  unfold Snake.update at h
  dsimp only at h
  split at h
  · rename_i hcond
    right
    refine ⟨?_, h⟩
    intro ⟨h1, h2⟩
    rcases hcond with hx | hy
    · exact hx h1
    · exact hy h2
  · rename_i hcond
    left
    push_neg at hcond
    exact ⟨hcond.1, hcond.2, (Option.some.inj h).symm⟩

/-- A successful Snake::Update never changes the speed field. -/
theorem update_speed (s s' : Snake) (h : s.update = some s') :
    s'.speed = s.speed := by
  rcases update_cases s s' h with ⟨_, _, rfl⟩ | ⟨_, hb⟩
  · exact (updateHead_fields s).1
  · exact ((updateBody_spec _ _ _ _ hb).1).trans (updateHead_fields s).1

/-! Game::PlaceFood lemmas: placement touches only the food sequence. -/

/-- Game::PlaceFood leaves both snakes and both scores unchanged. -/
theorem placeFood_fields (ent : List Int) (g : GameState) (idx : Int)
    (g' : GameState) (ent' : List Int) (h : placeFood g idx ent = some (g', ent')) :
    g'.snake = g.snake ∧ g'.enemy = g.enemy ∧
    g'.score0 = g.score0 ∧ g'.score1 = g.score1 := by
  induction ent using placeFood.induct with
  | g => exact g
  | index => exact idx
  | case1 x y hfree n rest2 =>
      simp only [placeFood, if_pos hfree, Option.some.injEq, Prod.mk.injEq] at h
      obtain ⟨h1, h2⟩ := h
      subst h1
      simp
  | case2 x y hfree =>
      simp only [placeFood, if_pos hfree] at h
      exact absurd h (by simp)
  | case3 x y rest hocc ih =>
      simp only [placeFood] at h
      rw [if_neg hocc] at h
      exact ih h
  | case4 t hne =>
      cases t with
      | nil => simp [placeFood] at h
      | cons x t' =>
          cases t' with
          | nil => simp [placeFood] at h
          | cons y t'' => exact absurd rfl (hne x y t'')

/-- The enemy half of the collision resolution never touches the player
snake or scores[0]. -/
theorem enemyPhase_player_fields (g : GameState) (x y : Int) (ent : List Int)
    (g' : GameState) (ent' : List Int) (h : enemyPhase g x y ent = some (g', ent')) :
    g'.snake = g.snake ∧ g'.score0 = g.score0 := by
  unfold enemyPhase at h
  dsimp only at h
  split at h
  · have hp := placeFood_fields _ _ _ _ _ h
    exact ⟨hp.1, hp.2.2.1⟩
  · simp only [Option.some.injEq, Prod.mk.injEq] at h
    obtain ⟨h1, h2⟩ := h
    subst h1
    exact ⟨rfl, rfl⟩

/-- The player half of the collision resolution either keeps the player
speed, adds 0.005 under the MAX_SPEED guard (Normal), or adds 0.05
unconditionally (Boost). -/
theorem playerPhase_speed (g : GameState) (x y : Int) (ent : List Int)
    (g' : GameState) (ent' : List Int) (h : playerPhase g x y ent = some (g', ent')) :
    g'.snake.speed = g.snake.speed ∨
    (g.snake.speed.lt MAX_SPEED = true ∧
      g'.snake.speed = g.snake.speed.add (mkQ 1 200)) ∨
    g'.snake.speed = g.snake.speed.add (mkQ 1 20) := by
  unfold playerPhase at h
  dsimp only at h
  split at h
  · have hp := (placeFood_fields _ _ _ _ _ h).1
    cases ht : getType g.foods (checkFood g.foods x y) <;> rw [ht] at hp
    · -- Normal
      by_cases hlt : g.snake.speed.lt MAX_SPEED = true
      · right; left
        refine ⟨hlt, ?_⟩
        rw [hp]
        simp [applyEat, Snake.growBody, hlt]
      · left
        rw [hp]
        simp [applyEat, Snake.growBody, hlt]
    · -- Boost
      right; right
      rw [hp]
      simp [applyEat, Snake.growBody]
    · -- Cut
      left
      rw [hp]
      simp [applyEat, Snake.growBody, Snake.cutBody]
  · simp only [Option.some.injEq, Prod.mk.injEq] at h
    obtain ⟨h1, h2⟩ := h
    subst h1
    exact Or.inl rfl

/-! Claim theorems. -/

/-- C1 (counterexample): the claim that speed never exceeds MAX_SPEED
fails.  Starting from the real Game::Game state on a 32-by-32 grid and
running 13 Game::Update ticks in which the player eats four Boost foods,
the player speed ends strictly above MAX_SPEED (it reaches 0.35 > 0.3). -/
theorem c1_speed_counterexample :
    ((gameInit 32 32 c1Entropy).bind fun p => gameIter 13 p.1 p.2).map
        (fun p => MAX_SPEED.lt p.1.snake.speed) = some true := by decide

/-- C1 (amended): a single Game::Update leaves the player speed
unchanged, raises it by 0.005 under the speed < MAX_SPEED guard (Normal
food), or raises it by 0.05 with no guard at all (Boost food); nothing
clamps the result to MAX_SPEED, so Boost eats grow it without bound. -/
theorem c1_speed_amended (g : GameState) (ent : List Int) (g' : GameState)
    (ent' : List Int) (h : gameUpdate g ent = some (g', ent')) :
    g'.snake.speed = g.snake.speed ∨
    (g.snake.speed.lt MAX_SPEED = true ∧
      g'.snake.speed = g.snake.speed.add (mkQ 1 200)) ∨
    g'.snake.speed = g.snake.speed.add (mkQ 1 20) := by
  unfold gameUpdate at h
  split at h
  · simp only [Option.some.injEq, Prod.mk.injEq] at h
    obtain ⟨h1, h2⟩ := h
    subst h1
    exact Or.inl rfl
  · split at h
    · rename_i sn en hsu heu
      dsimp only at h
      split at h
      · exact absurd h (by simp)
      all_goals
        rename_i hpp
        have hsnake := (enemyPhase_player_fields _ _ _ _ _ _ h).1
        have htri := playerPhase_speed _ _ _ _ _ _ hpp
        have hspd : sn.speed = g.snake.speed := update_speed _ _ hsu
        rw [hsnake]
        simpa [hspd] using htri
    · exact absurd h (by simp)

/-- C1 (witness for the amended theorem): the tick after construction in
which the player eats the Boost food at (11,15). -/
theorem c1_speed_amended_witness :
    c1AfterTick.1.snake.speed = c1Start.1.snake.speed ∨
    (c1Start.1.snake.speed.lt MAX_SPEED = true ∧
      c1AfterTick.1.snake.speed = c1Start.1.snake.speed.add (mkQ 1 200)) ∨
    c1AfterTick.1.snake.speed = c1Start.1.snake.speed.add (mkQ 1 20) :=
  c1_speed_amended c1Start.1 c1Start.2 c1AfterTick.1 c1AfterTick.2 (by decide)

/-- C2 (counterexample): the claim that the lifetime counter stays at or
above 0 fails: Food::Count decrements with no clamp, so 301 calls on a
fresh food drive the counter to -1. -/
theorem c2_counter_counterexample :
    ((Food.count)^[301] Food.initFood).counter = -1 ∧
    ¬ (0 ≤ ((Food.count)^[301] Food.initFood).counter) := by
  constructor
  · decide
  · decide

/-- C2 (amended): the counter decreases by exactly one per Count call and
can fall below 0; from the call that takes it to 0 (or below) onward the
type is Normal and stays Normal, and the position never changes, until
Food::Update relocates the food. -/
theorem c2_counter_amended (f : Food) (n : Nat) (h1 : 1 ≤ n)
    (h2 : f.counter ≤ (n : Int)) :
    ((Food.count)^[n] f).counter = f.counter - n ∧
    ((Food.count)^[n] f).type = FoodType.kNormal ∧
    ((Food.count)^[n] f).pos = f.pos :=
  ⟨count_iter_counter f n, count_iter_type_normal f n h1 h2, count_iter_pos f n⟩

/-- C2 (witness): a Boost food counted 305 times has counter -5, Normal
type and an unchanged position. -/
theorem c2_counter_amended_witness :
    ((Food.count)^[305] boostFood).counter = boostFood.counter - 305 ∧
    ((Food.count)^[305] boostFood).type = FoodType.kNormal ∧
    ((Food.count)^[305] boostFood).pos = boostFood.pos :=
  c2_counter_amended boostFood 305 (by decide) (by decide)

/-- C3 (counterexample): the claim that the body list length equals the
size field fails already at construction: the Snake constructor starts
size at 1 and pushes two body cells, so size is 3 while the body holds 2
cells. -/
theorem c3_body_size_counterexample :
    (Snake.create 32 32 11 16 (mkQ 3 20)).body.length = 2 ∧
    (Snake.create 32 32 11 16 (mkQ 3 20)).size = 3 ∧ (2 : Int) ≠ 3 := by
  refine ⟨by decide, by decide, by decide⟩

/-- C3 (amended): the size field counts the head as well, so the
invariant the code maintains is body length + 1 = size: it holds after
construction and is preserved by every Snake::Update that returns (does
not hit the out-of-bounds cutting erase). -/
theorem c3_body_size_amended :
    (∀ gw gh ix iy sp, ((Snake.create gw gh ix iy sp).body.length : Int) + 1 =
        (Snake.create gw gh ix iy sp).size) ∧
    ∀ s s' : Snake, ((s.body.length : Int) + 1 = s.size) → s.update = some s' →
        ((s'.body.length : Int) + 1 = s'.size) := by
  constructor
  · intro gw gh ix iy sp
    simp [Snake.create, Snake.pushBack]
  · intro s s' hinv h
    rcases update_cases s s' h with ⟨_, _, rfl⟩ | ⟨_, hb⟩
    · have hf := updateHead_fields s
      rw [hf.2.2.1, hf.2.1]
      exact hinv
    · obtain ⟨-, -, -, -, -, -, hbody, hsize, hbound⟩ := updateBody_spec _ _ _ _ hb
      obtain ⟨-, hsz, hbd, hgr, hct, -, -⟩ := updateHead_fields s
      simp only [hsz, hbd, hgr, hct] at hbody hsize hbound
      cases hg : s.growing <;> cases hc : s.cutting
      · simp only [hg, hc, Bool.false_eq_true, if_true, if_false, ite_true,
          ite_false] at hbody hsize
        rw [hbody, hsize]
        simp only [List.length_drop, List.length_tail, List.length_append,
          List.length_singleton]
        omega
      · simp only [hg, hc, Bool.false_eq_true, Bool.true_eq_false, if_true, if_false,
          ite_true, ite_false, forall_true_left] at hbody hsize hbound
        rw [hbody, hsize]
        simp only [List.length_drop, List.length_tail, List.length_append,
          List.length_singleton] at hbound ⊢
        omega
      · simp only [hg, hc, Bool.false_eq_true, Bool.true_eq_false, if_true, if_false,
          ite_true, ite_false] at hbody hsize
        rw [hbody, hsize]
        simp only [List.length_drop, List.length_tail, List.length_append,
          List.length_singleton]
        omega
      · simp only [hg, hc, if_true, if_false, ite_true, ite_false,
          forall_true_left] at hbody hsize hbound
        rw [hbody, hsize]
        simp only [List.length_drop, List.length_tail, List.length_append,
          List.length_singleton] at hbound ⊢
        omega

/-- C3 (witness for the amended theorem): the freshly constructed player
snake keeps body length + 1 = size through one Update. -/
theorem c3_body_size_amended_witness :
    ((sampleSnakeUpdated.body.length : Int) + 1 = sampleSnakeUpdated.size) :=
  c3_body_size_amended.2 sampleSnake sampleSnakeUpdated (by decide) (by decide)

/-- C4 (code bug): a snake whose size field is 2 carries a single body
cell, and an Update with the cutting flag set then erases
min(3, size) = 2 cells from a 1-cell body: vector::erase runs past the
end of the vector, which is undefined behavior, modelled here as none.
The claimed clean outcome (size 0, empty body) is unreachable. -/
theorem c4_cut_out_of_bounds :
    c4Snake.size = 2 ∧ c4Snake.cutting = true ∧ c4Snake.body.length = 1 ∧
    c4Snake.update = none := by
  refine ⟨by decide, by decide, by decide, by decide⟩

/-- C5 (counterexample): the claim that a tick with a dead snake mutates
nothing fails for headings: the Game::Run loop still calls
enemy.Navigate before Game::Update, and on c5State (player dead, enemy
heading Up with the nearest food behind it) the tick turns the enemy
heading from Up to Right. -/
theorem c5_dead_freeze_counterexample :
    c5State.snake.alive = false ∧ c5State.enemy.direction = Direction.kUp ∧
    (gameTick c5State []).map (fun p => p.1.enemy.direction) =
      some Direction.kRight := by
  refine ⟨by decide, by decide, by decide⟩

/-- C5 (amended): Game::Update itself does freeze everything: when either
snake is dead it returns with no mutation at all (both snakes, foods,
scores and the entropy stream unchanged); only the navigation and input
steps that Game::Run runs before it can still mutate headings. -/
theorem c5_dead_freeze_amended (g : GameState) (ent : List Int)
    (h : g.snake.alive = false ∨ g.enemy.alive = false) :
    gameUpdate g ent = some (g, ent) := by
  rcases h with h | h <;> simp [gameUpdate, h]

/-- C5 (witness for the amended theorem): Game::Update on the dead-player
state returns it unchanged. -/
theorem c5_dead_freeze_amended_witness :
    gameUpdate c5State [] = some (c5State, []) :=
  c5_dead_freeze_amended c5State [] (Or.inl (by decide))

/-- C6 (counterexample): the claim that every Update applies the pending
growth fails: a growing snake whose head stays inside its current cell
performs no body shift, so its size is unchanged (and not size + 1). -/
theorem c6_size_formula_counterexample :
    c6Snake.growing = true ∧ c6Snake.cutting = false ∧
    (c6Snake.update).map Snake.size = some c6Snake.size ∧
    c6Snake.size ≠ c6Snake.size + 1 := by
  refine ⟨by decide, by decide, by decide, by decide⟩

/-- C6 (amended): the size arithmetic of the claim holds exactly when the
Update moves the head to a new discretized cell (and the body edit stays
in bounds); an Update that stays inside the current cell leaves size
unchanged with the flags still pending. -/
theorem c6_size_formula_amended (s s' : Snake) (h : s.update = some s') :
    s'.size =
      if truncQ (s.updateHead).head_x = truncQ s.head_x ∧
         truncQ (s.updateHead).head_y = truncQ s.head_y then s.size
      else if s.cutting then max 0 (s.size + (if s.growing then 1 else 0) - 3)
      else if s.growing then s.size + 1
      else s.size := by
  rcases update_cases s s' h with ⟨h1, h2, rfl⟩ | ⟨hne, hb⟩
  · rw [if_pos ⟨h1, h2⟩]
    exact (updateHead_fields s).2.1
  · rw [if_neg hne]
    obtain ⟨-, -, -, -, -, -, -, hsize, -⟩ := updateBody_spec _ _ _ _ hb
    obtain ⟨-, hsz, -, hgr, hct, -, -⟩ := updateHead_fields s
    simp only [hsz, hgr, hct] at hsize
    cases hg : s.growing <;> cases hc : s.cutting <;>
      simp only [hg, hc, Bool.false_eq_true, Bool.true_eq_false, if_true, if_false,
        ite_true, ite_false] at hsize ⊢ <;>
      omega

/-- C6 (witness for the amended theorem): one Update of the freshly
constructed player snake, whose head does cross into a new cell. -/
theorem c6_size_formula_amended_witness :
    sampleSnakeUpdated.size =
      if truncQ (sampleSnake.updateHead).head_x = truncQ sampleSnake.head_x ∧
         truncQ (sampleSnake.updateHead).head_y = truncQ sampleSnake.head_y
      then sampleSnake.size
      else if sampleSnake.cutting then
        max 0 (sampleSnake.size + (if sampleSnake.growing then 1 else 0) - 3)
      else if sampleSnake.growing then sampleSnake.size + 1
      else sampleSnake.size :=
  c6_size_formula_amended sampleSnake sampleSnakeUpdated (by decide)

/-- C7 (counterexample): the claim that a failed probe rotates the
candidate heading one step through Up, Right, Down, Left fails: one step
from Right would be Down, but Snake::NextDirection maps Right to Right
(the switch has no break statements, so every entry falls through to the
final assignment). -/
theorem c7_rotation_counterexample :
    nextDirection Direction.kRight = Direction.kRight ∧
    Direction.kRight ≠ Direction.kDown := by
  refine ⟨by decide, by decide⟩

/-- C7 (amended): each probe that finds the candidate next cell occupied
sets the candidate heading to Right, whatever it was: the fall-through
collapses the four-step cycle, so NextDirection is constantly Right (and
the up-to-4-probe loop therefore re-probes Right from the second probe
on). -/
theorem c7_rotation_amended (d : Direction) :
    nextDirection d = Direction.kRight := by
  cases d <;> rfl

/-- C7 (witness for the amended theorem): the heading Down, from which
the claimed cycle would produce Left, is also sent to Right. -/
theorem c7_rotation_amended_witness :
    nextDirection Direction.kDown = Direction.kRight :=
  c7_rotation_amended Direction.kDown

/-- C8 (confirmed): the target-selection loop of Snake::Navigate starts
from index 0 and replaces the best index only on a strictly smaller
Manhattan distance, so in a two-food snapshot whose foods are equidistant
from the head (and nearer than the grid_width + grid_height sentinel) it
targets index 0, the lower index. -/
theorem c8_tie_break (s : Snake) (f0 f1 : Food)
    (heq : manhattan f0.pos (truncQ s.head_x) (truncQ s.head_y) =
           manhattan f1.pos (truncQ s.head_x) (truncQ s.head_y))
    (hlt : manhattan f0.pos (truncQ s.head_x) (truncQ s.head_y) <
           s.grid_width + s.grid_height) :
    navTargetIndex s [f0, f1] = 0 := by
  have hne : ¬ (manhattan f1.pos (truncQ s.head_x) (truncQ s.head_y) <
      manhattan f0.pos (truncQ s.head_x) (truncQ s.head_y)) := by
    rw [heq]
    exact lt_irrefl _
  unfold navTargetIndex
  simp [navSelectAux, hlt, hne]

/-- C8 (witness): the constructed player snake with head (11,16) and two
foods at (13,16) and (11,18), both at Manhattan distance 2. -/
theorem c8_tie_break_witness : navTargetIndex sampleSnake [c8FoodA, c8FoodB] = 0 :=
  c8_tie_break sampleSnake c8FoodA c8FoodB (by decide) (by decide)

/-- C9 (confirmed): the TTL is MAX_COUNT = 5 * 60 = 300 ticks: after
exactly 300 Count calls with no intervening Update, a food whose counter
started full has Normal type, whatever type it started with. -/
theorem c9_ttl (f : Food) (h : f.counter = MAX_COUNT) :
    ((Food.count)^[300] f).type = FoodType.kNormal ∧ MAX_COUNT = 300 :=
  ⟨count_iter_type_normal f 300 (by decide) (by rw [h]; decide), by decide⟩

/-- C9 (witness): a fresh Boost food is Normal after its 300th Count. -/
theorem c9_ttl_witness :
    ((Food.count)^[300] boostFood).type = FoodType.kNormal ∧ MAX_COUNT = 300 :=
  c9_ttl boostFood (by decide)

/-- C10 (confirmed): Game::Game pushes 0 for the player and 1 for the
enemy before placing any food, and food placement never touches the
scores, so GetScore on the freshly constructed game returns [0, 1]: the
enemy starts with a one-point lead that enters the final comparison in
main. -/
theorem c10_initial_scores (gw gh : Int) (ent : List Int) (g : GameState)
    (ent' : List Int) (h : gameInit gw gh ent = some (g, ent')) :
    getScore g = [0, 1] := by
  unfold gameInit at h
  split at h
  · exact absurd h (by simp)
  · rename_i g1 e1 hp1
    have h1 := placeFood_fields _ _ _ _ _ hp1
    have h2 := placeFood_fields _ _ _ _ _ h
    unfold getScore
    rw [h2.2.2.1, h2.2.2.2, h1.2.2.1, h1.2.2.2]
    rfl

/-- C10 (witness): a concrete construction on the 32-by-32 grid of main,
with both foods placed Normal at (0,0) and (1,0). -/
theorem c10_initial_scores_witness : getScore c10Init.1 = [0, 1] :=
  c10_initial_scores 32 32 c10Entropy c10Init.1 c10Init.2 (by decide)

end SnakeGame
